import Mathlib

/-!
Verification of the window-selection core of SeleniumLibrary
(`src/SeleniumLibrary/locators/windowmanager.py`).

The browser driver is modelled as an explicit state (`Browser`): the ordered
window-handle list returned by `window_handles`, the set of handles a
`switch_to.window` call succeeds on (`alive`), the currently focused window
(`current`, `none` meaning `current_window_handle` raises
`NoSuchWindowException`), per-window page data (`info`), and whether the
driver supports Javascript execution (`js`).

Every embedded operation returns a `Res`: either a value or a raised
exception, in both cases together with the driver state at that point, so
that theorems can speak about which window is left active on failure paths.
-/

set_option autoImplicit false

namespace WindowManager

/-- Exceptions that the Python code can raise or observe: selenium's
`NoSuchWindowException` and `WebDriverException`, and Python's builtin
`ValueError`, `AssertionError` and `IndexError`. -/
inductive Err where
  | noSuchWindow
  | webDriver
  | indexError
  | valueError (msg : String)
  | assertionError (msg : String)
  deriving DecidableEq, Repr

/-- Page-level data of one window: the script-exposed `window.id` and
`window.name` (absent values are Python `None`), the document title and the
current URL. -/
structure WinData where
  jsId : Option String
  jsName : Option String
  title : String
  url : String
  deriving DecidableEq, Repr

/-- The state of the external browser driver. -/
structure Browser where
  /-- What `browser.window_handles` returns, in driver order. -/
  handles : List String
  /-- Handles that `switch_to.window` succeeds on; switching to any other
  handle raises `NoSuchWindowException`. -/
  alive : List String
  /-- The currently focused window; `none` means `current_window_handle`
  raises `NoSuchWindowException`. -/
  current : Option String
  /-- Page data for each handle. -/
  info : String → WinData
  /-- Whether the driver supports `execute_script`. -/
  js : Bool

/-- Result of an embedded driver operation: a value or a raised exception,
each carrying the driver state at that point. -/
inductive Res (α : Type) where
  | ok (a : α) (b : Browser)
  | err (e : Err) (b : Browser)

/-- The driver state a computation ended in, successful or not. -/
def Res.state {α : Type} : Res α → Browser
  | .ok _ b => b
  | .err _ b => b

/-- Whether the computation returned normally. -/
def Res.isOk {α : Type} : Res α → Bool
  | .ok _ _ => true
  | .err _ _ => false

/-- The raised exception, when the computation raised one. -/
def Res.error? {α : Type} : Res α → Option Err
  | .ok _ _ => none
  | .err e _ => some e

/-- Python `str.lower()` (ASCII case folding, as the locators use). Defined
over the character list so that it evaluates inside the kernel. -/
def strLower (s : String) : String :=
  ⟨s.data.map Char.toLower⟩

/-- Strip whitespace from both ends of a character list. -/
def trimChars (l : List Char) : List Char :=
  ((l.dropWhile Char.isWhitespace).reverse.dropWhile Char.isWhitespace).reverse

/-- Python `str.strip()`: whitespace removed from both ends. Defined over
the character list so that it evaluates inside the kernel. -/
def strTrim (s : String) : String :=
  ⟨trimChars s.data⟩

/-- Python `len` on a string, as a character count. -/
def strLen (s : String) : Nat :=
  s.data.length

/-- `browser.switch_to.window(handle)`. -/
def switch_to_window (b : Browser) (h : String) : Res Unit :=
  if h ∈ b.alive then .ok () { b with current := some h }
  else .err .noSuchWindow b

/-- Python truthiness of `starting_handle` (`None` and the empty string are
falsy), as used by `if starting_handle:` before restoration. -/
def truthy : Option String → Bool
  | none => false
  | some s => s ≠ ""

/-- `x or 'undefined'` for a Python string `x`: the empty string is falsy. -/
def orUndefined (s : String) : String :=
  if s = "" then "undefined" else s

/-- The `WindowInfo` namedtuple: `(handle, id, name, title, url)`. -/
structure WindowInfo where
  handle : String
  id : String
  name : String
  title : String
  url : String
  deriving DecidableEq, Repr

/-- The `WindowInfo` that `_get_current_window_info` builds when the driver
is focused on handle `h`: `window.id`/`window.name` come from the script
call when Javascript is supported (a `WebDriverException` is absorbed into
`None`/`None` otherwise); `id` is replaced by `"undefined"` only when it is
`None`, while `name`, `title` and `url` also fall back on empty strings. -/
def mkInfo (b : Browser) (h : String) : WindowInfo :=
  let scriptVals : Option String × Option String :=
    if b.js then ((b.info h).jsId, (b.info h).jsName) else (none, none)
  { handle := h
    id := scriptVals.1.getD "undefined"
    name :=
      match scriptVals.2 with
      | none => "undefined"
      | some s => orUndefined s
    title := orUndefined (b.info h).title
    url := orUndefined (b.info h).url }

/-- `_get_current_window_info(browser)`: the script call comes first with
`WebDriverException` (hence also `NoSuchWindowException`) absorbed; reading
`current_window_handle` with no focused window then raises. -/
def _get_current_window_info (b : Browser) : Res WindowInfo :=
  match b.current with
  | none => .err .noSuchWindow b
  | some h => .ok (mkInfo b h) b

/-- The matcher lambda of `_select_by_title`:
`window_info[3].strip().lower() == criteria.lower()`. -/
def titleMatch (criteria : String) (wi : WindowInfo) : Bool :=
  strLower (strTrim wi.title) == strLower criteria

/-- The matcher lambda of `_select_by_name`:
`window_info[2].strip().lower() == criteria.lower()`. -/
def nameMatch (criteria : String) (wi : WindowInfo) : Bool :=
  strLower (strTrim wi.name) == strLower criteria

/-- The matcher lambda of `_select_by_url`:
`window_info[4].strip().lower() == criteria.lower()`. -/
def urlMatch (criteria : String) (wi : WindowInfo) : Bool :=
  strLower (strTrim wi.url) == strLower criteria

/-- The `for handle in browser.window_handles:` loop of `_select_matching`:
switch to each handle in turn, read its `WindowInfo`, and stop with `true`
on the first match; `false` when the list is exhausted without a match.
Exceptions (a failing switch) propagate. -/
def matchLoop (matcher : WindowInfo → Bool) : Browser → List String → Res Bool
  | b, [] => .ok false b
  | b, h :: rest =>
    match switch_to_window b h with
    | .err e b1 => .err e b1
    | .ok _ b1 =>
      match _get_current_window_info b1 with
      | .err e b2 => .err e b2
      | .ok wi b2 =>
        if matcher wi then .ok true b2 else matchLoop matcher b2 rest

/-- `_select_matching(browser, matcher, error)`: record the starting handle
(`NoSuchWindowException` absorbed into `None`), scan all windows, and on a
completed scan with no match restore the starting handle (when truthy) and
raise `ValueError(error)`. -/
def _select_matching (b : Browser) (matcher : WindowInfo → Bool)
    (error : String) : Res Unit :=
  let sh := b.current
  match matchLoop matcher b b.handles with
  | .err e b1 => .err e b1
  | .ok true b1 => .ok () b1
  | .ok false b1 =>
    if truthy sh then
      match switch_to_window b1 (sh.getD "") with
      | .err e b2 => .err e b2
      | .ok _ b2 => .err (.valueError error) b2
    else .err (.valueError error) b1

/-- `_select_by_title(browser, criteria)`. -/
def _select_by_title (b : Browser) (criteria : String) : Res Unit :=
  _select_matching b (titleMatch criteria)
    ("Unable to locate window with title \x27" ++ criteria ++ "\x27")

/-- `_select_by_name(browser, criteria)`. -/
def _select_by_name (b : Browser) (criteria : String) : Res Unit :=
  _select_matching b (nameMatch criteria)
    ("Unable to locate window with name \x27" ++ criteria ++ "\x27")

/-- `_select_by_url(browser, criteria)`. -/
def _select_by_url (b : Browser) (criteria : String) : Res Unit :=
  _select_matching b (urlMatch criteria)
    ("Unable to locate window with URL \x27" ++ criteria ++ "\x27")

/-- The scan loop of `_select_by_default`: switch to each handle; match on
raw handle equality first, then on the `name` and `title` fields of the
`WindowInfo` (`[2:4]`), trimmed and case-insensitively. -/
def defaultLoop (criteria : String) : Browser → List String → Res Bool
  | b, [] => .ok false b
  | b, h :: rest =>
    match switch_to_window b h with
    | .err e b1 => .err e b1
    | .ok _ b1 =>
      if criteria == h then .ok true b1
      else
        match _get_current_window_info b1 with
        | .err e b2 => .err e b2
        | .ok wi b2 =>
          if strLower (strTrim wi.name) == strLower criteria then .ok true b2
          else if strLower (strTrim wi.title) == strLower criteria then .ok true b2
          else defaultLoop criteria b2 rest

/-- `_select_by_default(browser, criteria)`: `None`, empty or `"null"`
criteria select `handles[0]` unconditionally (an empty handle list raises
`IndexError`); otherwise scan by handle/name/title, restoring the starting
handle before raising `ValueError` when nothing matches. -/
def _select_by_default (b : Browser) (criteria : Option String) : Res Unit :=
  let isNullish : Bool :=
    match criteria with
    | none => true
    | some c => strLen c == 0 || strLower c == "null"
  if isNullish then
    match b.handles with
    | [] => .err .indexError b
    | h :: _ => switch_to_window b h
  else
    let c := criteria.getD ""
    let sh := b.current
    match defaultLoop c b b.handles with
    | .err e b1 => .err e b1
    | .ok true b1 => .ok () b1
    | .ok false b1 =>
      if truthy sh then
        match switch_to_window b1 (sh.getD "") with
        | .err e b2 => .err e b2
        | .ok _ b2 =>
          .err (.valueError ("Unable to locate window with handle or name or title or URL \x27" ++ c ++ "\x27")) b2
      else
        .err (.valueError ("Unable to locate window with handle or name or title or URL \x27" ++ c ++ "\x27")) b1

/-- `_select_by_last_index(browser)`: `handles[-1]` is evaluated first, so
an empty list raises `IndexError`, caught into `AssertionError("No window
found")`; reading `current_window_handle` with no focus raises
`NoSuchWindowException`, caught into the "no focus window" assertion; a last
handle equal to the current one raises the "no new window" assertion;
otherwise switch to the last handle. -/
def _select_by_last_index (b : Browser) : Res Unit :=
  match b.handles.getLast? with
  | none => .err (.assertionError "No window found") b
  | some last =>
    match b.current with
    | none =>
      .err (.assertionError "Currently no focus window. where are you making a popup window?") b
    | some cur =>
      if last == cur then
        .err (.assertionError "No new window at last index. Please use \x27@\x7bex\x7d= | List Windows\x27 + new window trigger + \x27Select Window | $\x7bex\x7d\x27 to find it.") b
      else switch_to_window b last

/-- The `for handle in browser.window_handles:` loop of
`_select_by_excludes`: skip excluded handles without switching; switch to
the first non-excluded handle; raise `ValueError` when all are excluded. -/
def excludesLoop (excludes : List String) : Browser → List String → Res Unit
  | b, [] => .err (.valueError "Unable to locate new window") b
  | b, h :: rest =>
    if h ∈ excludes then excludesLoop excludes b rest
    else switch_to_window b h

/-- `_select_by_excludes(browser, excludes)`. -/
def _select_by_excludes (b : Browser) (excludes : List String) : Res Unit :=
  excludesLoop excludes b b.handles

/-- Split a character list at the first `'='`: `some (before, after)` when
one occurs, `none` otherwise. -/
def breakEq : List Char → Option (List Char × List Char)
  | [] => none
  | c :: rest =>
    if c = '=' then some ([], rest)
    else
      match breakEq rest with
      | some (l, r) => some (c :: l, r)
      | none => none

/-- `locator.partition('=')`, restricted to the information the caller
uses: `some (before, after)` when `'='` occurs (split at its first
occurrence), `none` otherwise. -/
def partitionEq (s : String) : Option (String × String) :=
  match breakEq s.data with
  | some (l, r) => some (⟨l⟩, ⟨r⟩)
  | none => none

/-- The criteria normalisation of `_parse_locator`: under a `None` or
`name` prefix, a `None` criteria or one equal to `"main"`
(case-insensitively) becomes the empty string. -/
def normMain : Option String → String
  | none => ""
  | some c => if strLower c == "main" then "" else c

/-- `_parse_locator(locator)`: split a non-empty locator on the first `=`
into a lowercased/trimmed prefix and a trimmed criteria; without `=` the
prefix is `None` and the criteria the whole locator; then normalise
`main`/`None` criteria under `None`/`name` prefixes. -/
def _parse_locator (locator : Option String) : Option String × String :=
  let pc : Option String × Option String :=
    match locator with
    | none => (none, none)
    | some s =>
      if strLen s > 0 then
        match partitionEq s with
        | some (l, r) => (some (strLower (strTrim l)), some (strTrim r))
        | none => (none, some s)
      else (none, some s)
  if pc.1 = none ∨ pc.1 = some "name" then (pc.1, normMain pc.2)
  else (pc.1, (pc.2).getD "")

/-- The strategy-dictionary dispatch at the end of `select`: `title`,
`name` and `url` map to their strategies, a `None` prefix to the default
strategy, and any other prefix raises
`ValueError("Window locator with prefix '...' is not supported")`. -/
def selectByStrategy (b : Browser) (pc : Option String × String) : Res Unit :=
  match pc.1 with
  | none => _select_by_default b (some pc.2)
  | some p =>
    if p = "title" then _select_by_title b pc.2
    else if p = "name" then _select_by_name b pc.2
    else if p = "url" then _select_by_url b pc.2
    else
      .err (.valueError ("Window locator with prefix \x27" ++ p ++ "\x27 is not supported")) b

/-- The `locator` argument of `select`: `None`, a string, or a list of
handles to exclude. -/
inductive Loc where
  | none_
  | str (s : String)
  | list (hs : List String)

/-- `select(locator)`: a list dispatches to the exclusion strategy;
`self`/`current` (case-insensitive) is a no-op; `new`/`popup` dispatches to
the last-index strategy; everything else is parsed and dispatched through
the strategy table. -/
def select (b : Browser) (loc : Loc) : Res Unit :=
  match loc with
  | .list hs => _select_by_excludes b hs
  | .str s =>
    if strLower s == "self" || strLower s == "current" then .ok () b
    else if strLower s == "new" || strLower s == "popup" then _select_by_last_index b
    else selectByStrategy b (_parse_locator (some s))
  | .none_ => selectByStrategy b (_parse_locator none)

/-- The enumeration loop of `get_window_infos`: switch to each handle and
collect its `WindowInfo`, in handle-list order. -/
def infosLoop : Browser → List String → Res (List WindowInfo)
  | b, [] => .ok [] b
  | b, h :: rest =>
    match switch_to_window b h with
    | .err e b1 => .err e b1
    | .ok _ b1 =>
      match _get_current_window_info b1 with
      | .err e b2 => .err e b2
      | .ok wi b2 =>
        match infosLoop b2 rest with
        | .ok wis b3 => .ok (wi :: wis) b3
        | .err e b3 => .err e b3

/-- `get_window_infos()`: record the starting handle
(`NoSuchWindowException` absorbed), enumerate all windows inside a
`try`/`finally` whose `finally` switches back to the starting handle when
it is truthy; an exception raised by the restoration replaces the loop's
outcome, as in Python. -/
def get_window_infos (b : Browser) : Res (List WindowInfo) :=
  let sh := b.current
  let restore : Browser → Res Unit := fun b1 =>
    if truthy sh then switch_to_window b1 (sh.getD "") else .ok () b1
  match infosLoop b b.handles with
  | .ok wis b1 =>
    match restore b1 with
    | .ok _ b2 => .ok wis b2
    | .err e b2 => .err e b2
  | .err e b1 =>
    match restore b1 with
    | .ok _ b2 => .err e b2
    | .err e2 b2 => .err e2 b2

/-! ## General lemmas about the scanning loops -/

/-- Switching windows never changes the page data, the handle list, the set
of live handles or the Javascript capability, so the `WindowInfo` derived
for a handle is independent of which window is currently focused. -/
theorem mkInfo_update (b : Browser) (y : Option String) :
    mkInfo { b with current := y } = mkInfo b := rfl

/-- A completed `matchLoop` scan with no match returns `false` and leaves
the driver in the starting state except for the focused window. -/
theorem matchLoop_nomatch (m : WindowInfo → Bool) (hs : List String) :
    ∀ b : Browser, (∀ h ∈ hs, h ∈ b.alive) → (∀ h ∈ hs, m (mkInfo b h) = false) →
      ∃ cur, matchLoop m b hs = .ok false { b with current := cur } := by
  induction hs with
  | nil =>
    intro b _ _
    exact ⟨b.current, rfl⟩
  | cons h rest ih =>
    intro b halive hnom
    have hmem : h ∈ b.alive := halive h (by simp)
    have hm : m (mkInfo b h) = false := hnom h (by simp)
    obtain ⟨cur, hrec⟩ := ih { b with current := some h }
      (fun x hx => halive x (by simp [hx]))
      (fun x hx => hnom x (by simp [hx]))
    refine ⟨cur, ?_⟩
    simp only [matchLoop, switch_to_window, if_pos hmem, _get_current_window_info,
      mkInfo_update, hm, Bool.false_eq_true, if_false]
    exact hrec

/-- `matchLoop` stops at the first matching handle and leaves it focused. -/
theorem matchLoop_first_match (m : WindowInfo → Bool) (pre : List String) :
    ∀ (b : Browser) (hk : String) (post : List String),
      (∀ h ∈ pre, h ∈ b.alive) → (∀ h ∈ pre, m (mkInfo b h) = false) →
      hk ∈ b.alive → m (mkInfo b hk) = true →
      matchLoop m b (pre ++ hk :: post) = .ok true { b with current := some hk } := by
  induction pre with
  | nil =>
    intro b hk post _ _ hkal hkm
    simp only [List.nil_append, matchLoop, switch_to_window, if_pos hkal,
      _get_current_window_info, mkInfo_update, hkm, if_true]
  | cons h rest ih =>
    intro b hk post halive hnom hkal hkm
    have hmem : h ∈ b.alive := halive h (by simp)
    have hm : m (mkInfo b h) = false := hnom h (by simp)
    have hrec := ih { b with current := some h } hk post
      (fun x hx => halive x (by simp [hx]))
      (fun x hx => hnom x (by simp [hx]))
      hkal hkm
    simp only [List.cons_append, matchLoop, switch_to_window, if_pos hmem,
      _get_current_window_info, mkInfo_update, hm, Bool.false_eq_true, if_false]
    exact hrec

/-- `_select_matching` on a scan that completes with no match restores the
(known, truthy) starting window and raises `ValueError` with the given
message. -/
theorem select_matching_nomatch (b : Browser) (m : WindowInfo → Bool) (e : String)
    (h0 : String) (hcur : b.current = some h0) (hne : h0 ≠ "") (hal : h0 ∈ b.alive)
    (hhal : ∀ h ∈ b.handles, h ∈ b.alive)
    (hnom : ∀ h ∈ b.handles, m (mkInfo b h) = false) :
    _select_matching b m e = .err (.valueError e) { b with current := some h0 } := by
  obtain ⟨cur, hloop⟩ := matchLoop_nomatch m b.handles b hhal hnom
  have htr : truthy (some h0) = true := by simp [truthy, hne]
  simp only [_select_matching, hloop, hcur, htr, if_true, Option.getD_some,
    switch_to_window]
  rw [if_pos hal]

/-- `_select_matching` on a scan whose first match is `hk` succeeds and
leaves `hk` focused. -/
theorem select_matching_found (b : Browser) (m : WindowInfo → Bool) (e : String)
    (pre : List String) (hk : String) (post : List String)
    (hb : b.handles = pre ++ hk :: post)
    (halive : ∀ h ∈ pre, h ∈ b.alive) (hnom : ∀ h ∈ pre, m (mkInfo b h) = false)
    (hkal : hk ∈ b.alive) (hkm : m (mkInfo b hk) = true) :
    _select_matching b m e = .ok () { b with current := some hk } := by
  have hloop := matchLoop_first_match m pre b hk post halive hnom hkal hkm
  simp only [_select_matching, hb, hloop]

/-- Whatever the outcome of the `get_window_infos` enumeration loop, the
driver state it ends in differs from the starting one at most in the
focused window. -/
theorem infosLoop_state (hs : List String) :
    ∀ b : Browser, ∃ cur, (infosLoop b hs).state = { b with current := cur } := by
  induction hs with
  | nil =>
    intro b
    exact ⟨b.current, rfl⟩
  | cons h rest ih =>
    intro b
    by_cases hmem : h ∈ b.alive
    · obtain ⟨cur, hrec⟩ := ih { b with current := some h }
      refine ⟨cur, ?_⟩
      simp only [infosLoop, switch_to_window, if_pos hmem, _get_current_window_info]
      cases hres : infosLoop { b with current := some h } rest with
      | ok wis b3 =>
        rw [hres] at hrec
        simpa [Res.state] using hrec
      | err e b3 =>
        rw [hres] at hrec
        simpa [Res.state] using hrec
    · refine ⟨b.current, ?_⟩
      simp only [infosLoop, switch_to_window, if_neg hmem, Res.state]

/-- When every handle in the list is live, the `get_window_infos`
enumeration loop returns one `WindowInfo` per handle, in list order. -/
theorem infosLoop_ok (hs : List String) :
    ∀ b : Browser, (∀ h ∈ hs, h ∈ b.alive) →
      ∃ cur, infosLoop b hs = .ok (hs.map (mkInfo b)) { b with current := cur } := by
  induction hs with
  | nil =>
    intro b _
    exact ⟨b.current, rfl⟩
  | cons h rest ih =>
    intro b halive
    have hmem : h ∈ b.alive := halive h (by simp)
    obtain ⟨cur, hrec⟩ := ih { b with current := some h }
      (fun x hx => halive x (by simp [hx]))
    refine ⟨cur, ?_⟩
    simp only [infosLoop, switch_to_window, if_pos hmem, _get_current_window_info]
    rw [hrec]
    simp only [List.map_cons, mkInfo_update]

/-- When every handle in the list is excluded, the exclusion loop raises
`ValueError("Unable to locate new window")` without switching windows: the
driver state is returned untouched. -/
theorem excludesLoop_all (excludes : List String) (hs : List String) :
    ∀ b : Browser, (∀ h ∈ hs, h ∈ excludes) →
      excludesLoop excludes b hs = .err (.valueError "Unable to locate new window") b := by
  induction hs with
  | nil =>
    intro b _
    rfl
  | cons h rest ih =>
    intro b hall
    have hmem : h ∈ excludes := hall h (by simp)
    simp only [excludesLoop, if_pos hmem]
    exact ih b (fun x hx => hall x (by simp [hx]))

/-- The exclusion loop switches to the first non-excluded handle (when it
is live) and succeeds, having performed no other switch. -/
theorem excludesLoop_first (excludes : List String) (pre : List String) :
    ∀ (b : Browser) (h : String) (post : List String),
      (∀ p ∈ pre, p ∈ excludes) → h ∉ excludes → h ∈ b.alive →
      excludesLoop excludes b (pre ++ h :: post) = .ok () { b with current := some h } := by
  induction pre with
  | nil =>
    intro b h post _ hnotex hal
    simp only [List.nil_append, excludesLoop, if_neg hnotex, switch_to_window,
      if_pos hal]
  | cons p rest ih =>
    intro b h post hall hnotex hal
    have hmem : p ∈ excludes := hall p (by simp)
    simp only [List.cons_append, excludesLoop, if_pos hmem]
    exact ih b h post (fun x hx => hall x (by simp [hx])) hnotex hal

/-! ## Concrete driver states used to instantiate the theorems -/

/-- Page data with no script-exposed id or name. -/
def wdat (t u : String) : WinData := ⟨none, none, t, u⟩

/-- Two live windows `A` (title `Home`) and `B` (title `Login`), `A`
focused, on a driver without Javascript support. -/
def bW : Browser :=
  ⟨["A", "B"], ["A", "B"], some "A",
   fun h =>
     if h = "A" then wdat "Home" "http://a"
     else if h = "B" then wdat "Login" "http://b"
     else wdat "" "",
   false⟩

/-- A driver with no windows at all and no focus. -/
def bE : Browser :=
  ⟨[], [], none, fun _ => wdat "" "", false⟩

/-- A driver whose handle list still names a window `B` that can no longer
be switched to: the focused window is `S`, and scanning `["A", "B"]` raises
`NoSuchWindowException` when it reaches `B`. -/
def bCrash : Browser :=
  ⟨["A", "B"], ["S", "A"], some "S",
   fun h =>
     if h = "A" then wdat "alpha" "http://a"
     else if h = "S" then wdat "start" "http://s"
     else wdat "beta" "http://b",
   false⟩

/-! ## The claims -/

/-- Claim C1 as stated is false: in the driver state `bCrash`, scanning by
title for a criteria that matches no window raises mid-loop when switching
to the dead handle `B`, and the scan exits with the scanned window `A`
active instead of restoring the pre-scan window `S` — restoration is not
guaranteed when the enumeration raises mid-loop. -/
theorem C1_counterexample :
    bCrash.current = some "S" ∧
    (_select_by_title bCrash "nomatch").isOk = false ∧
    (_select_by_title bCrash "nomatch").state.current = some "A" := by
  refine ⟨rfl, ?_, ?_⟩ <;> decide

/-- Claim C1, amended: for every matching-strategy scan (title, name, url),
if the enumeration completes without raising and no window matches, the
(known, truthy, still live) window that was active before the scan began is
restored before the `NotFound` error is raised; when the enumeration itself
raises mid-loop the exception propagates without restoration. -/
theorem C1_amended (b : Browser) (h0 : String)
    (hcur : b.current = some h0) (hne : h0 ≠ "") (hal : h0 ∈ b.alive)
    (hhal : ∀ h ∈ b.handles, h ∈ b.alive) :
    (∀ c, (∀ h ∈ b.handles, titleMatch c (mkInfo b h) = false) →
      _select_by_title b c =
        .err (.valueError ("Unable to locate window with title \x27" ++ c ++ "\x27"))
          { b with current := some h0 }) ∧
    (∀ c, (∀ h ∈ b.handles, nameMatch c (mkInfo b h) = false) →
      _select_by_name b c =
        .err (.valueError ("Unable to locate window with name \x27" ++ c ++ "\x27"))
          { b with current := some h0 }) ∧
    (∀ c, (∀ h ∈ b.handles, urlMatch c (mkInfo b h) = false) →
      _select_by_url b c =
        .err (.valueError ("Unable to locate window with URL \x27" ++ c ++ "\x27"))
          { b with current := some h0 }) := by
  refine ⟨fun c hnom => ?_, fun c hnom => ?_, fun c hnom => ?_⟩ <;>
    exact select_matching_nomatch b _ _ h0 hcur hne hal hhal hnom

/-- Witness for `C1_amended` on the concrete two-window driver `bW`. -/
theorem C1_amended_witness :
    _select_by_title bW "missing" =
      .err (.valueError "Unable to locate window with title \x27missing\x27")
        { bW with current := some "A" } := by
  exact (C1_amended bW "A" rfl (by decide) (by decide) (by decide)).1 "missing" (by decide)

/-- Claim C2 as stated is false: parsing `"name=main"` does not yield the
pair `("name", "main")` — the criteria is further normalised to the empty
string. -/
theorem C2_counterexample :
    _parse_locator (some "name=main") ≠ (some "name", "main") ∧
    _parse_locator (some "name=main") = (some "name", "") := by
  refine ⟨?_, ?_⟩ <;> decide

/-- Claim C2, amended: for every locator string of the form
`prefix=criteria` with prefix in `{title, name, url}`, parsing yields the
pair (prefix lowercased and stripped, criteria stripped), except that under
the `name` prefix a stripped criteria equal to `"main"` case-insensitively
is further normalised to the empty string. -/
theorem C2_amended (s l r : String)
    (hp : partitionEq s = some (l, r))
    (hpre : strLower (strTrim l) = "title" ∨ strLower (strTrim l) = "name" ∨
      strLower (strTrim l) = "url") :
    _parse_locator (some s) =
      (some (strLower (strTrim l)),
       if strLower (strTrim l) = "name" ∧ strLower (strTrim r) = "main" then ""
       else strTrim r) := by
  have hpos : strLen s > 0 := by
    rcases hd : s.data with _ | ⟨c, cs⟩
    · exfalso
      have hnone : partitionEq s = none := by simp [partitionEq, breakEq, hd]
      rw [hnone] at hp
      exact Option.noConfusion hp
    · simp [strLen, hd]
  simp only [_parse_locator, if_pos hpos, hp]
  rcases hpre with h | h | h <;> rw [h] <;>
    simp [normMain, beq_iff_eq]

/-- Witness for `C2_amended`: `"url= X "` parses to `("url", "X")`. -/
theorem C2_amended_witness :
    _parse_locator (some "url= X ") = (some "url", "X") := by
  have h := C2_amended "url= X " "url" " X " (by decide) (by decide)
  exact h.trans (by decide)

/-- Claim C3: selecting with locator `new` or `popup` dispatches to the
last-index strategy, which fails with "No window found" on an empty handle
list, with the "no focus window" assertion when no window is focused, and
with the no-new-window assertion — leaving the active window unchanged —
when the last handle is the current one; otherwise it switches to the last
handle and succeeds. -/
theorem C3_select_new_or_popup (b : Browser) :
    select b (.str "new") = _select_by_last_index b ∧
    select b (.str "popup") = _select_by_last_index b ∧
    (b.handles = [] →
      _select_by_last_index b = .err (.assertionError "No window found") b) ∧
    (∀ l, b.handles.getLast? = some l → b.current = none →
      _select_by_last_index b =
        .err (.assertionError "Currently no focus window. where are you making a popup window?") b) ∧
    (∀ l, b.handles.getLast? = some l → b.current = some l →
      _select_by_last_index b =
        .err (.assertionError "No new window at last index. Please use \x27@\x7bex\x7d= | List Windows\x27 + new window trigger + \x27Select Window | $\x7bex\x7d\x27 to find it.") b) ∧
    (∀ l c, b.handles.getLast? = some l → b.current = some c → l ≠ c → l ∈ b.alive →
      _select_by_last_index b = .ok () { b with current := some l }) := by
  refine ⟨rfl, rfl, ?_, ?_, ?_, ?_⟩
  · intro hemp
    simp [_select_by_last_index, hemp]
  · intro l hl hcur
    simp [_select_by_last_index, hl, hcur]
  · intro l hl hcur
    simp [_select_by_last_index, hl, hcur]
  · intro l c hl hcur hne hal
    have hbeq : (l == c) = false := beq_eq_false_iff_ne.mpr hne
    simp [_select_by_last_index, hl, hcur, hbeq, switch_to_window, hal]

/-- Witness for `C3_select_new_or_popup`: on `bW` the last handle `B`
differs from the current `A`, so selection switches to `B`; on the empty
driver `bE` it fails with "No window found". -/
theorem C3_witness :
    _select_by_last_index bW = .ok () { bW with current := some "B" } ∧
    _select_by_last_index bE = .err (.assertionError "No window found") bE := by
  constructor
  · exact (C3_select_new_or_popup bW).2.2.2.2.2 "B" "A" rfl rfl (by decide) (by decide)
  · exact (C3_select_new_or_popup bE).2.2.1 rfl

/-- The display title of the window behind handle `h`, normalised the way
the title matcher compares it. -/
def normTitle (b : Browser) (h : String) : String :=
  strLower (strTrim (mkInfo b h).title)

/-- Claim C4: with all listed windows live and a known focused window, (a)
if the listed windows have pairwise distinct normalised titles and window
`hk` has a nonempty, whitespace-free title, selecting by that exact title
leaves `hk` active and succeeds; (b) selecting by a title that matches no
window restores the originally active window and fails with a `NotFound`
error whose message contains the criteria verbatim. -/
theorem C4_title_selection (b : Browser) (h0 : String)
    (hcur : b.current = some h0) (hne : h0 ≠ "") (hal : h0 ∈ b.alive)
    (hhal : ∀ h ∈ b.handles, h ∈ b.alive) :
    (∀ pre hk post, b.handles = pre ++ hk :: post →
      (b.handles.map (normTitle b)).Pairwise (fun a c => a ≠ c) →
      strTrim (b.info hk).title = (b.info hk).title →
      (b.info hk).title ≠ "" →
      _select_by_title b ((b.info hk).title) = .ok () { b with current := some hk }) ∧
    (∀ c, (∀ h ∈ b.handles, titleMatch c (mkInfo b h) = false) →
      _select_by_title b c =
        .err (.valueError ("Unable to locate window with title \x27" ++ c ++ "\x27"))
          { b with current := some h0 }) := by
  constructor
  · intro pre hk post hb hpw htrim hnemp
    have hdisp : (mkInfo b hk).title = (b.info hk).title := by
      simp [mkInfo, orUndefined, hnemp]
    have hkmem : hk ∈ b.handles := by
      rw [hb]; exact List.mem_append_right _ (List.mem_cons_self _ _)
    have hkal : hk ∈ b.alive := hhal hk hkmem
    have hmatchk : titleMatch ((b.info hk).title) (mkInfo b hk) = true := by
      simp only [titleMatch, hdisp, htrim]
      exact beq_self_eq_true _
    have hnormk : normTitle b hk = strLower ((b.info hk).title) := by
      simp only [normTitle, hdisp, htrim]
    have hprenom : ∀ h ∈ pre, titleMatch ((b.info hk).title) (mkInfo b h) = false := by
      intro h hh
      have hpw2 := hpw
      rw [hb, List.map_append] at hpw2
      have hsep := (List.pairwise_append.mp hpw2).2.2
      have hdiff : normTitle b h ≠ normTitle b hk :=
        hsep (normTitle b h) (List.mem_map_of_mem _ hh)
          (normTitle b hk) (by simp)
      have : strLower (strTrim (mkInfo b h).title) ≠ strLower ((b.info hk).title) := by
        rw [← hnormk]
        exact hdiff
      simp only [titleMatch]
      exact beq_eq_false_iff_ne.mpr this
    exact select_matching_found b _ _ pre hk post hb
      (fun h hh => hhal h (by rw [hb]; exact List.mem_append_left _ hh))
      hprenom hkal hmatchk
  · intro c hnom
    exact select_matching_nomatch b _ _ h0 hcur hne hal hhal hnom

/-- Witness for `C4_title_selection` on `bW`: selecting `Login` activates
window `B`; selecting `missing` restores `A` and raises the `NotFound`
error naming `missing`. -/
theorem C4_witness :
    _select_by_title bW "Login" = .ok () { bW with current := some "B" } ∧
    _select_by_title bW "missing" =
      .err (.valueError "Unable to locate window with title \x27missing\x27")
        { bW with current := some "A" } := by
  have h := C4_title_selection bW "A" rfl (by decide) (by decide) (by decide)
  constructor
  · exact h.1 ["A"] "B" [] rfl (by decide) (by decide) (by decide)
  · exact h.2 "missing" (by decide)

/-- Claim C5: with a known, truthy, live focused window, `get_window_infos`
always leaves the driver back on the pre-call active window — whatever the
scan's outcome — and, when every listed window is live, returns one
`WindowInfo` snapshot per open window in the order of the driver's
window-handle list. -/
theorem C5_get_window_infos (b : Browser) (h0 : String)
    (hcur : b.current = some h0) (hne : h0 ≠ "") (hal : h0 ∈ b.alive) :
    (get_window_infos b).state = { b with current := some h0 } ∧
    ((∀ h ∈ b.handles, h ∈ b.alive) →
      get_window_infos b = .ok (b.handles.map (mkInfo b)) { b with current := some h0 }) := by
  have htr : truthy (some h0) = true := by simp [truthy, hne]
  constructor
  · obtain ⟨cur, hst⟩ := infosLoop_state b.handles b
    simp only [get_window_infos, hcur, htr, if_true, Option.getD_some]
    cases hres : infosLoop b b.handles with
    | ok wis b1 =>
      rw [hres] at hst
      simp only [Res.state] at hst
      simp only [hst, switch_to_window]
      have : h0 ∈ ({ b with current := cur } : Browser).alive := hal
      rw [if_pos this]
      rfl
    | err e b1 =>
      rw [hres] at hst
      simp only [Res.state] at hst
      simp only [hst, switch_to_window]
      have : h0 ∈ ({ b with current := cur } : Browser).alive := hal
      rw [if_pos this]
      rfl
  · intro hhal
    obtain ⟨cur, hok⟩ := infosLoop_ok b.handles b hhal
    simp only [get_window_infos, hcur, htr, if_true, Option.getD_some, hok,
      switch_to_window]
    have : h0 ∈ ({ b with current := cur } : Browser).alive := hal
    rw [if_pos this]

/-- Witness for `C5_get_window_infos` on `bW`: both snapshots are returned
in handle order and the pre-call window `A` is active afterwards. -/
theorem C5_witness :
    (get_window_infos bW).state = { bW with current := some "A" } ∧
    get_window_infos bW = .ok (bW.handles.map (mkInfo bW)) { bW with current := some "A" } := by
  have h := C5_get_window_infos bW "A" rfl (by decide) (by decide)
  exact ⟨h.1, h.2 (by decide)⟩

/-- Claim C6: for every exclusion-list selection, if at least one listed
(live) handle is not in the exclusion set, the first such handle in
window-list order becomes the active window and the call succeeds; if every
listed handle is excluded, the call fails with the
`ValueError("Unable to locate new window")` NotFound error. -/
theorem C6_select_by_excludes (b : Browser) (excludes : List String) :
    ((∀ h ∈ b.handles, h ∈ excludes) →
      _select_by_excludes b excludes =
        .err (.valueError "Unable to locate new window") b) ∧
    (∀ pre h post, b.handles = pre ++ h :: post →
      (∀ p ∈ pre, p ∈ excludes) → h ∉ excludes → h ∈ b.alive →
      _select_by_excludes b excludes = .ok () { b with current := some h }) := by
  constructor
  · intro hall
    exact excludesLoop_all excludes b.handles b hall
  · intro pre h post hb hpre hnot hal
    have := excludesLoop_first excludes pre b h post hpre hnot hal
    simpa [_select_by_excludes, hb] using this

/-- Witness for `C6_select_by_excludes` on `bW`: excluding `A` selects `B`;
excluding both handles fails with the NotFound error. -/
theorem C6_witness :
    _select_by_excludes bW ["A"] = .ok () { bW with current := some "B" } ∧
    _select_by_excludes bW ["A", "B"] =
      .err (.valueError "Unable to locate new window") bW := by
  constructor
  · exact (C6_select_by_excludes bW ["A"]).2 ["A"] "B" [] rfl (by decide) (by decide)
      (by decide)
  · exact (C6_select_by_excludes bW ["A", "B"]).1 (by decide)

/-- Claim C7: under the default (no-prefix) strategy, a `None`, empty or
`"null"` (case-insensitive) criteria — including the normalised forms of
locator `None`, the empty locator and `"main"`/`"MAIN"` — selects the first
handle of the window-handle list unconditionally: the result state differs
from the input only by that single switch, with no per-window scanning and
no restoration. -/
theorem C7_default_first_window (b : Browser) (h : String) (t : List String)
    (hb : b.handles = h :: t) (hal : h ∈ b.alive) :
    _select_by_default b none = .ok () { b with current := some h } ∧
    (∀ c, strLen c = 0 ∨ strLower c = "null" →
      _select_by_default b (some c) = .ok () { b with current := some h }) ∧
    select b .none_ = .ok () { b with current := some h } ∧
    select b (.str "") = .ok () { b with current := some h } ∧
    select b (.str "main") = .ok () { b with current := some h } ∧
    select b (.str "MAIN") = .ok () { b with current := some h } := by
  have hfirst : _select_by_default b none = .ok () { b with current := some h } := by
    simp [_select_by_default, hb, switch_to_window, hal]
  have hempty : _select_by_default b (some "") = .ok () { b with current := some h } := by
    simp [_select_by_default, strLen, hb, switch_to_window, hal]
  refine ⟨hfirst, ?_, ?_, ?_, ?_, ?_⟩
  · intro c hc
    have hnull : (strLen c == 0 || strLower c == "null") = true := by
      rcases hc with hc | hc <;> simp [hc]
    simp [_select_by_default, hnull, hb, switch_to_window, hal]
  · have hred : select b .none_ = _select_by_default b (some "") := rfl
    rw [hred]; exact hempty
  · have hred : select b (.str "") = _select_by_default b (some "") := rfl
    rw [hred]; exact hempty
  · have hred : select b (.str "main") = _select_by_default b (some "") := rfl
    rw [hred]; exact hempty
  · have hred : select b (.str "MAIN") = _select_by_default b (some "") := rfl
    rw [hred]; exact hempty

/-- Witness for `C7_default_first_window` on `bW`, whose first handle is
`A`. -/
theorem C7_witness :
    select bW .none_ = .ok () { bW with current := some "A" } ∧
    select bW (.str "main") = .ok () { bW with current := some "A" } ∧
    _select_by_default bW (some "NULL") = .ok () { bW with current := some "A" } := by
  have h := C7_default_first_window bW "A" ["B"] rfl (by decide)
  exact ⟨h.2.2.1, h.2.2.2.2.1, h.2.1 "NULL" (by decide)⟩

/-- Claim C8: for every locator of the form `prefix=criteria` whose parsed
prefix is not `title`, `name` or `url` (and which is not one of the special
tokens), selection fails with the `ValueError` naming the offending prefix,
and the driver state is returned completely untouched — no window is
scanned or switched. -/
theorem C8_unknown_prefix (b : Browser) (s p c : String)
    (h1 : strLower s ≠ "self") (h2 : strLower s ≠ "current")
    (h3 : strLower s ≠ "new") (h4 : strLower s ≠ "popup")
    (hp : _parse_locator (some s) = (some p, c))
    (hpt : p ≠ "title") (hpn : p ≠ "name") (hpu : p ≠ "url") :
    select b (.str s) =
      .err (.valueError ("Window locator with prefix \x27" ++ p ++ "\x27 is not supported")) b := by
  have e1 : (strLower s == "self") = false := beq_eq_false_iff_ne.mpr h1
  have e2 : (strLower s == "current") = false := beq_eq_false_iff_ne.mpr h2
  have e3 : (strLower s == "new") = false := beq_eq_false_iff_ne.mpr h3
  have e4 : (strLower s == "popup") = false := beq_eq_false_iff_ne.mpr h4
  simp only [select, e1, e2, e3, e4, Bool.or_self, Bool.false_eq_true, if_false, hp,
    selectByStrategy, if_neg hpt, if_neg hpn, if_neg hpu]

/-- Witness for `C8_unknown_prefix`: `foo=bar` fails naming `foo`, leaving
`bW` untouched. -/
theorem C8_witness :
    select bW (.str "foo=bar") =
      .err (.valueError "Window locator with prefix \x27foo\x27 is not supported") bW := by
  exact C8_unknown_prefix bW "foo=bar" "foo" "bar"
    (by decide) (by decide) (by decide) (by decide) (by decide)
    (by decide) (by decide) (by decide)

/-- Claim C9: when an exclusion-list selection fails because every listed
handle is excluded, no window switch is performed at all: the driver state,
in particular the active window, is exactly the one before the call. -/
theorem C9_excludes_failure_no_switch (b : Browser) (excludes : List String)
    (hall : ∀ h ∈ b.handles, h ∈ excludes) :
    (_select_by_excludes b excludes).isOk = false ∧
    (_select_by_excludes b excludes).state = b ∧
    (_select_by_excludes b excludes).state.current = b.current := by
  have h := excludesLoop_all excludes b.handles b hall
  have hsel : _select_by_excludes b excludes =
      .err (.valueError "Unable to locate new window") b := h
  simp [hsel, Res.isOk, Res.state]

/-- Witness for `C9_excludes_failure_no_switch` on `bW` with both handles
excluded. -/
theorem C9_witness :
    (_select_by_excludes bW ["B", "A"]).isOk = false ∧
    (_select_by_excludes bW ["B", "A"]).state = bW ∧
    (_select_by_excludes bW ["B", "A"]).state.current = bW.current := by
  exact C9_excludes_failure_no_switch bW ["B", "A"] (by decide)

/-- Claim C10: invoking the default strategy with `None`, empty or `"null"`
criteria while the window-handle list is empty fails with `IndexError` from
the unguarded `handles[0]`, not with any domain error, and leaves the
driver untouched. -/
theorem C10_default_empty_handles (b : Browser) (c : Option String)
    (hb : b.handles = [])
    (hc : c = none ∨ ∃ s, c = some s ∧ (strLen s = 0 ∨ strLower s = "null")) :
    _select_by_default b c = .err .indexError b := by
  rcases hc with hc | ⟨s, hc, hs⟩
  · simp [_select_by_default, hc, hb]
  · have hnull : (strLen s == 0 || strLower s == "null") = true := by
      rcases hs with hs | hs <;> simp [hs]
    simp [_select_by_default, hc, hnull, hb]

/-- Witness for `C10_default_empty_handles` on the empty driver `bE`. -/
theorem C10_witness :
    _select_by_default bE (some "") = .err .indexError bE ∧
    _select_by_default bE none = .err .indexError bE := by
  constructor
  · exact C10_default_empty_handles bE (some "") rfl (Or.inr ⟨"", rfl, Or.inl rfl⟩)
  · exact C10_default_empty_handles bE none rfl (Or.inl rfl)

end WindowManager
